import Mathlib

/-!
Shallow embedding of the qrify-server redirect/scan-analytics core:
the redirect gate (`src/routes/scan.ts`), the scan recorder (`logScan`),
the geolocation resolver (`src/lib/geolocation.ts`), the team resolver
(`src/lib/team.ts`) and the analytics device classification
(`src/routes/qr.ts` stats handler).  JavaScript truthiness on optional
strings/numbers is made explicit through small helper functions.
-/

namespace Qrify

/-- JS truthiness of a `string | null | undefined` value: `null`,
`undefined` and the empty string are falsy. -/
def jsStrTruthy : Option String → Bool
  | none => false
  | some s => s ≠ ""

/-- JS `a || b` on an optional string `a` with default `b`. -/
def jsOrStr (v : Option String) (d : String) : String :=
  match v with
  | none => d
  | some s => if s = "" then d else s

/-- JS truthiness of a `number | null | undefined` value: `null`,
`undefined` and `0` are falsy (numbers are modelled as integers). -/
def jsNumTruthy : Option Int → Bool
  | none => false
  | some n => n ≠ 0

/-! ## Data model: ShortLink (QrCode rows) and the redirect gate -/

/-- A `QrCode` row as used by the scan route: identifier, public slug,
stored target URL, the `dynamic` flag, optional password hash and
optional absolute expiry timestamp (epoch milliseconds). -/
structure QrCode where
  id : String
  slug : String
  originalUrl : String
  dynamic : Bool
  passwordHash : Option String
  expiresAt : Option Int
  deriving DecidableEq, Repr

/-- `prisma.qrCode.findUnique({ where: { slug } })`: the first row whose
slug matches (slugs are unique in the store). -/
def findBySlug (db : List QrCode) (slug : String) : Option QrCode :=
  db.find? (fun qr => qr.slug == slug)

/-- `qr.expiresAt && new Date() > qr.expiresAt`: a JS `Date` object is
always truthy, so this is "an expiry is set and lies strictly before
now". -/
def expiredNow (qr : QrCode) (now : Int) : Bool :=
  match qr.expiresAt with
  | some t => now > t
  | none => false

/-- The decision of the redirect gate in `GET /scan/:slug`. -/
inductive ScanOutcome where
  | notFound
  | gone
  | passwordRequired
  | forbidden
  | redirect (target : String)
  deriving DecidableEq, Repr

/-- The password gate and final redirect of `GET /scan/:slug`
(`src/routes/scan.ts` lines 27-31 and 100): if a password hash is set,
a missing supplied password yields 401, a mismatching one 403; otherwise
redirect to the stored `originalUrl`. -/
def resolvePassword (qr : QrCode) (password : Option String)
    (cmp : String → String → Bool) : ScanOutcome :=
  if jsStrTruthy qr.passwordHash then
    if ¬ jsStrTruthy password then .passwordRequired
    else if cmp (password.getD "") (qr.passwordHash.getD "") then
      .redirect qr.originalUrl
    else .forbidden
  else .redirect qr.originalUrl

/-- The synchronous redirect gate of `GET /scan/:slug`
(`src/routes/scan.ts` lines 18-31 and 100): look up by slug, check
expiry strictly against `now` (a JS `Date` object is always truthy, so
only presence of `expiresAt` is tested), then the password gate, then
redirect to the stored `originalUrl`.  `cmp` is the credential-hash
collaborator (`comparePassword`). -/
def resolveGate (db : List QrCode) (slug : String) (password : Option String)
    (now : Int) (cmp : String → String → Bool) : ScanOutcome :=
  match findBySlug db slug with
  | none => .notFound
  | some qr =>
    if expiredNow qr now then .gone
    else resolvePassword qr password cmp

/-- The canonical self-referential tracking URL this system constructs
for a slug (`src/routes/qr.ts`, image route:
`protocol + "://" + host + "/scan/" + slug`). -/
def scanUrl (protocol host slug : String) : String :=
  protocol ++ "://" ++ host ++ "/scan/" ++ slug

/-! ## Geolocation resolver (`src/lib/geolocation.ts`) -/

/-- The normalized location record (`LocationData`): every field is
independently optional. -/
structure LocationData where
  country : Option String
  city : Option String
  region : Option String
  latitude : Option Int
  longitude : Option Int
  deriving DecidableEq, Repr

/-- The sentinel record `{ country: 'Unknown', city: 'Unknown',
region: 'Unknown' }` returned on every absorbed failure path. -/
def unknownLocation : LocationData :=
  { country := some "Unknown", city := some "Unknown",
    region := some "Unknown", latitude := none, longitude := none }

/-- JSON payload of the primary provider (ipapi.co): `error` truthiness
of `data.error`, plus the optional location fields. -/
structure PrimaryBody where
  error : Bool
  country_name : Option String
  city : Option String
  region : Option String
  latitude : Option Int
  longitude : Option Int
  deriving DecidableEq, Repr

/-- JSON payload of the secondary provider (ip-api.com). -/
structure FallbackBody where
  status : String
  country : Option String
  city : Option String
  regionName : Option String
  lat : Option Int
  lon : Option Int
  deriving DecidableEq, Repr

/-- Outcome of one bounded-timeout `fetch` of a geolocation provider:
abort on timeout, a thrown transport error, a non-2xx HTTP status, or a
parsed JSON body. -/
inductive ProviderOutcome (β : Type) where
  | timeout
  | transportError
  | httpError (status : Nat)
  | ok (body : β)
  deriving DecidableEq, Repr

/-- The external world as seen by one `getLocationFromIP` call: the
outcome of each public-IP discovery service (in order, `some ip` on
HTTP success with trimmed body `ip`, `none` on failure or timeout), and
the outcome of the primary and secondary provider fetches. -/
structure GeoEnv where
  publicIPServices : List (Option String)
  primary : ProviderOutcome PrimaryBody
  fallback : ProviderOutcome FallbackBody
  deriving DecidableEq, Repr

/-- `getPublicIP`: try the discovery services in sequence, first
success wins; `none` models the final `throw` when all fail. -/
def getPublicIP (env : GeoEnv) : Option String :=
  env.publicIPServices.findSome? id

/-- The localhost/private-range test at the top of
`getLocationFromIP` (`startsWith` is prefix comparison on the character
sequences). -/
def isPrivateIP (ip : String) : Bool :=
  ip = "" || ip = "::1" || "127.".data.isPrefixOf ip.data
    || "192.168.".data.isPrefixOf ip.data || "10.".data.isPrefixOf ip.data

/-- Normalization of a primary-provider payload
(`data.country_name || 'Unknown'` etc.; `data.latitude ? parseFloat(...)
: undefined`). -/
def normalizePrimary (b : PrimaryBody) : LocationData :=
  { country := some (jsOrStr b.country_name "Unknown"),
    city := some (jsOrStr b.city "Unknown"),
    region := some (jsOrStr b.region "Unknown"),
    latitude := if jsNumTruthy b.latitude then b.latitude else none,
    longitude := if jsNumTruthy b.longitude then b.longitude else none }

/-- Normalization of a secondary-provider payload. -/
def normalizeFallback (b : FallbackBody) : LocationData :=
  { country := some (jsOrStr b.country "Unknown"),
    city := some (jsOrStr b.city "Unknown"),
    region := some (jsOrStr b.regionName "Unknown"),
    latitude := if jsNumTruthy b.lat then b.lat else none,
    longitude := if jsNumTruthy b.lon then b.lon else none }

/-- `getLocationFromIPFallback`: empty IP short-circuits to the
sentinel; any fetch failure or a non-`success` payload status is caught
and yields the sentinel; a `success` payload is normalized. -/
def getLocationFromIPFallback (env : GeoEnv) (ip : String) : LocationData :=
  if ip = "" then unknownLocation
  else
    match env.fallback with
    | .ok b => if b.status ≠ "success" then unknownLocation else normalizeFallback b
    | _ => unknownLocation

/-- Classification of what escapes the inner fetch logic of
`getLocationFromIP` into its outer `catch`. -/
inductive GeoErr where
  | abortError
  | other
  deriving DecidableEq, Repr

/-- The primary-provider section of `getLocationFromIP`'s try block:
a 429 status or a semantic `data.error` payload returns the fallback
result for the *original* `ip` argument; a timeout aborts; a transport
error or any other non-2xx status is thrown to the outer catch. -/
def primaryAttempt (env : GeoEnv) (ip : String) : Except GeoErr LocationData :=
  match env.primary with
  | .timeout => .error .abortError
  | .transportError => .error .other
  | .httpError status =>
    if status = 429 then .ok (getLocationFromIPFallback env ip)
    else .error .other
  | .ok b =>
    if b.error then .ok (getLocationFromIPFallback env ip)
    else .ok (normalizePrimary b)

/-- The primary attempt together with `getLocationFromIP`'s outer
catch, where `targetIP` is the resolved lookup target: an `AbortError`
returns the sentinel directly (no fallback attempt), every other caught
error falls through to `getLocationFromIPFallback(targetIP || ip)`. -/
def primaryPhase (env : GeoEnv) (ip targetIP : String) : LocationData :=
  match primaryAttempt env ip with
  | .ok l => l
  | .error .abortError => unknownLocation
  | .error .other => getLocationFromIPFallback env (jsOrStr (some targetIP) ip)

/-- `getLocationFromIP`: for a private/loopback/empty IP, first discover
the public egress IP (all services failing is caught and yields the
sentinel), then run the primary phase on the resolved target. -/
def getLocationFromIP (env : GeoEnv) (ip : String) : LocationData :=
  if isPrivateIP ip then
    match getPublicIP env with
    | none => unknownLocation
    | some pub => primaryPhase env ip pub
  else primaryPhase env ip ip

/-- The primary provider produced no usable answer: it timed out,
threw, returned a non-2xx status, or returned an error payload. -/
def primaryNoAnswer (env : GeoEnv) : Prop :=
  ∀ b, env.primary = .ok b → b.error = true

/-- The secondary provider produced no usable answer: it timed out,
threw, returned a non-2xx status, or returned a non-`success`
payload. -/
def fallbackNoAnswer (env : GeoEnv) : Prop :=
  ∀ b, env.fallback = .ok b → b.status ≠ "success"

/-! ## Scan recorder (`logScan` in `src/routes/scan.ts`) -/

/-- A `Scan` row as created by `logScan`: the enriched insert carries
the resolved location fields, the fallback insert omits them. -/
structure ScanRow where
  qrId : String
  ip : Option String
  ua : String
  country : Option String
  city : Option String
  region : Option String
  latitude : Option Int
  longitude : Option Int
  deriving DecidableEq, Repr

/-- The environment of one `logScan` run: the outcome of its
`getLocationFromIP` call (`.error` models an unexpected internal fault
that was not already absorbed there), and whether each of the two
`prisma.scan.create` calls succeeds. -/
structure RecorderEnv where
  geo : Except Unit LocationData
  enrichedInsertOk : Bool
  minimalInsertOk : Bool
  deriving Repr

/-- The geolocation-enriched record of the first insert
(`ip: clientIP || null`, `ua: req.headers['user-agent'] ?? ''`). -/
def enrichedRow (qrId : String) (clientIP : Option String) (ua : String)
    (loc : LocationData) : ScanRow :=
  { qrId := qrId, ip := if jsStrTruthy clientIP then clientIP else none,
    ua := ua, country := loc.country, city := loc.city, region := loc.region,
    latitude := loc.latitude, longitude := loc.longitude }

/-- The minimal record of the single retry: ShortLink id, IP and
user-agent only, no location fields. -/
def minimalRow (qrId : String) (clientIP : Option String) (ua : String) : ScanRow :=
  { qrId := qrId, ip := if jsStrTruthy clientIP then clientIP else none,
    ua := ua, country := none, city := none, region := none,
    latitude := none, longitude := none }

/-- `logScan`: try the enriched insert; on any throw (from the
geolocation call or the insert) retry exactly once with the minimal
record; a second failure is swallowed.  Returns the persisted row (if
any) together with the list of insert attempts in order. -/
def logScan (env : RecorderEnv) (qrId : String) (clientIP : Option String)
    (ua : String) : Option ScanRow × List ScanRow :=
  match env.geo with
  | .ok loc =>
    let row := enrichedRow qrId clientIP ua loc
    if env.enrichedInsertOk then (some row, [row])
    else
      let fb := minimalRow qrId clientIP ua
      if env.minimalInsertOk then (some fb, [row, fb])
      else (none, [row, fb])
  | .error _ =>
    let fb := minimalRow qrId clientIP ua
    if env.minimalInsertOk then (some fb, [fb])
    else (none, [fb])

/-- The whole `GET /scan/:slug` handler: the redirect gate, and on
success the detached `logScan` side effect.  Returns the client-visible
outcome together with the recorder's persisted row and attempt list. -/
def resolveAndLog (db : List QrCode) (slug : String) (password : Option String)
    (now : Int) (cmp : String → String → Bool) (env : RecorderEnv)
    (clientIP : Option String) (ua : String) :
    ScanOutcome × Option ScanRow × List ScanRow :=
  match findBySlug db slug with
  | none => (.notFound, none, [])
  | some qr =>
    if expiredNow qr now then (.gone, none, [])
    else if jsStrTruthy qr.passwordHash then
      if ¬ jsStrTruthy password then (.passwordRequired, none, [])
      else if cmp (password.getD "") (qr.passwordHash.getD "") then
        (.redirect qr.originalUrl, logScan env qr.id clientIP ua)
      else (.forbidden, none, [])
    else (.redirect qr.originalUrl, logScan env qr.id clientIP ua)

/-! ## Team resolver (`src/lib/team.ts`) -/

/-- A `User` row as selected by the team resolver. -/
structure User where
  id : String
  email : String
  role : String
  invitedBy : Option String
  deriving DecidableEq, Repr

/-- `validateUserId` succeeds: a truthy string, at least 8 characters,
matching `/^[a-zA-Z0-9]+$/`. -/
def validUserId (s : String) : Bool :=
  8 ≤ s.length && s.data.all (fun c => c.isAlphanum)

/-- `prisma.user.findUnique({ where: { id } })`. -/
def findUser (db : List User) (id : String) : Option User :=
  db.find? (fun u => u.id == id)

/-- The `findMany` of both team branches: every user whose `invitedBy`
equals `rootId`, plus the user whose id is `rootId`, in store order. -/
def teamUnder (db : List User) (rootId : String) : List User :=
  db.filter (fun u => u.invitedBy == some rootId || u.id == rootId)

/-- `getTeamMembers` errors as seen by a caller: the format-check throw
happens before the `try`, everything thrown inside it is re-thrown as a
generic failure by the outer catch. -/
inductive TeamErr where
  | invalidFormat
  | failed
  deriving DecidableEq, Repr

/-- The `while (currentUser.invitedBy && depth < 10)` upward walk: one
recursion step per loop iteration, `fuel` being the remaining
iterations.  Returns the root admin's id when one is found; `.ok none`
when the chain ends (falsy `invitedBy`), an inviter is absent, or the
ceiling is hit; `.error` when `validateUserId` throws on a malformed
`invitedBy`.  The second component counts the iterations started. -/
def walkToRoot (db : List User) : User → Nat → Except Unit (Option String) × Nat
  | _, 0 => (.ok none, 0)
  | cur, fuel+1 =>
    if !(jsStrTruthy cur.invitedBy) then (.ok none, 0)
    else if !(validUserId (cur.invitedBy.getD "")) then (.error (), 1)
    else
      match findUser db (cur.invitedBy.getD "") with
      | none => (.ok none, 1)
      | some inviter =>
        if inviter.role == "admin" && !(jsStrTruthy inviter.invitedBy) then
          (.ok (some inviter.id), 1)
        else
          let r := walkToRoot db inviter fuel
          (r.1, r.2 + 1)

/-- `getTeamMembers`: format check, own-record lookup, the root branch
(admin with no inviter) or the upward walk with depth ceiling 10, with
the degrade-to-self fallback when no root was found. -/
def getTeamMembers (db : List User) (userId : String) : Except TeamErr (List User) :=
  if !(validUserId userId) then .error .invalidFormat
  else
    match findUser db userId with
    | none => .error .failed
    | some user =>
      if user.role == "admin" && !(jsStrTruthy user.invitedBy) then
        .ok (teamUnder db user.id)
      else
        match (walkToRoot db user 10).1 with
        | .error _ => .error .failed
        | .ok none => .ok [user]
        | .ok (some adminId) =>
          if !(validUserId adminId) then .error .failed
          else .ok (teamUnder db adminId)

/-- `getTeamMemberIds`: the ids of `getTeamMembers`' rows. -/
def getTeamMemberIds (db : List User) (userId : String) :
    Except TeamErr (List String) :=
  (getTeamMembers db userId).map (List.map User.id)

/-! ## Analytics device classification (`GET /qr/stats`) -/

/-- The three device buckets. -/
inductive Device where
  | mobile
  | desktop
  | tablet
  deriving DecidableEq, Repr

/-- `toLowerCase()`: lowercase every character. -/
def jsToLower (s : String) : String :=
  ⟨s.data.map Char.toLower⟩

/-- `pat` occurs as a contiguous run inside `l`. -/
def charsContain (pat : List Char) : List Char → Bool
  | [] => pat.isEmpty
  | c :: rest => pat.isPrefixOf (c :: rest) || charsContain pat rest

/-- `s.includes(pat)` on already-lowercased text. -/
def containsToken (s pat : String) : Bool :=
  charsContain pat.data s.data

/-- The classification body of the `deviceStats` reduce:
`scan.ua?.toLowerCase() || ''`, then the mobile token test, then the
tablet token test, else desktop. -/
def classifyUA (ua : Option String) : Device :=
  let s := jsOrStr (ua.map jsToLower) ""
  if containsToken s "mobile" || containsToken s "android" || containsToken s "iphone"
  then .mobile
  else if containsToken s "tablet" || containsToken s "ipad" then .tablet
  else .desktop

/-- The accumulator of the `deviceStats` reduce. -/
structure DeviceCounts where
  mobile : Nat
  desktop : Nat
  tablet : Nat
  deriving DecidableEq, Repr

/-- `deviceStats`: fold the classification over the stored user-agent
strings, starting from zero counts. -/
def deviceStats (uas : List (Option String)) : DeviceCounts :=
  uas.foldl
    (fun acc ua =>
      match classifyUA ua with
      | .mobile => { acc with mobile := acc.mobile + 1 }
      | .tablet => { acc with tablet := acc.tablet + 1 }
      | .desktop => { acc with desktop := acc.desktop + 1 })
    { mobile := 0, desktop := 0, tablet := 0 }

/-! ## Concrete stores and environments used as test inputs -/

/-- A store holding one dynamic, unprotected, non-expiring link. -/
def dbDyn : List QrCode :=
  [{ id := "q1", slug := "abc12345", originalUrl := "https://example.com",
     dynamic := true, passwordHash := none, expiresAt := none }]

/-- A store holding one static, unprotected, non-expiring link. -/
def dbStatic : List QrCode :=
  [{ id := "q3", slug := "stat5678", originalUrl := "https://example.com",
     dynamic := false, passwordHash := none, expiresAt := none }]

/-- A store holding one password-protected link expired at time 5. -/
def dbExpired : List QrCode :=
  [{ id := "q2", slug := "expired99", originalUrl := "https://a.example",
     dynamic := false, passwordHash := some "h", expiresAt := some 5 }]

/-- An invitation graph whose chain to the root takes two upward steps:
`adminroot1` (root) invited `middleuser`, who invited `leafuser99`. -/
def teamDbChain : List User :=
  [{ id := "adminroot1", email := "root@example.com", role := "admin",
     invitedBy := none },
   { id := "middleuser", email := "mid@example.com", role := "editor",
     invitedBy := some "adminroot1" },
   { id := "leafuser99", email := "leaf@example.com", role := "viewer",
     invitedBy := some "middleuser" }]

/-- An invitation graph with a two-node `invitedBy` cycle. -/
def teamDbCycle : List User :=
  [{ id := "cycuserAAA", email := "a@example.com", role := "editor",
     invitedBy := some "cycuserBBB" },
   { id := "cycuserBBB", email := "b@example.com", role := "editor",
     invitedBy := some "cycuserAAA" }]

/-- An invitation graph whose chain is broken: the inviter id does not
exist in the store. -/
def teamDbBroken : List User :=
  [{ id := "orphanuser", email := "o@example.com", role := "viewer",
     invitedBy := some "missinguser" }]

/-- A geolocation environment where the primary provider times out and
the secondary provider would answer with a full record. -/
def envPrimaryTimeout : GeoEnv :=
  { publicIPServices := [],
    primary := .timeout,
    fallback := .ok { status := "success", country := some "France",
                      city := some "Paris", regionName := some "IDF",
                      lat := some 48, lon := some 2 } }

/-- A geolocation environment where the primary provider answers with a
country but no city, and the secondary provider is down. -/
def envPartialAnswer : GeoEnv :=
  { publicIPServices := [],
    primary := .ok { error := false, country_name := some "France",
                     city := none, region := some "IDF",
                     latitude := some 48, longitude := some 2 },
    fallback := .transportError }

/-- A geolocation environment where the primary provider reports rate
limiting (HTTP 429) and the secondary provider answers. -/
def envRateLimited : GeoEnv :=
  { publicIPServices := [],
    primary := .httpError 429,
    fallback := .ok { status := "success", country := some "Brazil",
                      city := some "Rio", regionName := some "RJ",
                      lat := some (-23), lon := some (-43) } }

/-- A geolocation environment where every discovery service and both
providers fail. -/
def envAllFail : GeoEnv :=
  { publicIPServices := [none, none, none, none],
    primary := .transportError,
    fallback := .httpError 500 }

/-- A recorder environment where geolocation succeeded but both inserts
fail. -/
def envBothInsertsFail : RecorderEnv :=
  { geo := .ok unknownLocation, enrichedInsertOk := false,
    minimalInsertOk := false }

/-! ## Helper lemmas -/

/-- A valid user id is nonempty (its length is at least 8). -/
theorem validUserId_ne_empty {s : String} (h : validUserId s = true) : s ≠ "" := by
  intro he
  subst he
  simp [validUserId] at h

/-- A valid user id is a truthy optional string. -/
theorem jsStrTruthy_of_valid {s : String} (h : validUserId s = true) :
    jsStrTruthy (some s) = true := by
  simp [jsStrTruthy, validUserId_ne_empty h]

/-- `x || ''`-style defaulting with equal operand and default. -/
theorem jsOrStr_self (s : String) : jsOrStr (some s) s = s := by
  by_cases h : s = "" <;> simp [jsOrStr, h]

/-- Lowercasing then defaulting against the empty string is just
lowercasing. -/
theorem jsOrStr_empty_default (s : String) : jsOrStr (some s) "" = s := by
  by_cases h : s = "" <;> simp [jsOrStr, h]

/-- The client-visible component of `resolveAndLog` is exactly the
redirect gate's decision; the recorder environment never enters it. -/
theorem resolveAndLog_fst (db : List QrCode) (slug : String)
    (password : Option String) (now : Int) (cmp : String → String → Bool)
    (env : RecorderEnv) (clientIP : Option String) (ua : String) :
    (resolveAndLog db slug password now cmp env clientIP ua).1
      = resolveGate db slug password now cmp := by
  unfold resolveAndLog resolveGate resolvePassword
  rcases hf : findBySlug db slug with _ | qr
  · rfl
  · by_cases he : expiredNow qr now
    · simp [he]
    · by_cases hp : jsStrTruthy qr.passwordHash
      · by_cases hq : jsStrTruthy password
        · by_cases hc : cmp (password.getD "") (qr.passwordHash.getD "")
          · simp [he, hp, hq, hc]
          · simp [he, hp, hq, hc]
        · simp [he, hp, hq]
      · simp [he, hp]

/-- The secondary provider's catch absorbs everything: its result is
the sentinel unless it returned a `success` payload, which is then
normalized. -/
theorem getLocationFromIPFallback_classify (env : GeoEnv) (ip : String) :
    getLocationFromIPFallback env ip = unknownLocation
    ∨ ∃ b, env.fallback = .ok b ∧ b.status = "success"
        ∧ getLocationFromIPFallback env ip = normalizeFallback b := by
  unfold getLocationFromIPFallback
  by_cases hip : ip = ""
  · exact Or.inl (by simp [hip])
  · rcases hb : env.fallback with _ | _ | s | b
    · exact Or.inl (by simp [hip])
    · exact Or.inl (by simp [hip])
    · exact Or.inl (by simp [hip])
    · by_cases hs : b.status = "success"
      · exact Or.inr ⟨b, rfl, hs, by simp [hip, hs]⟩
      · exact Or.inl (by simp [hip, hs])

/-- When the secondary provider produced no usable answer, its result
is the sentinel. -/
theorem getLocationFromIPFallback_noAnswer (env : GeoEnv) (ip : String)
    (h : ∀ b, env.fallback = .ok b → b.status ≠ "success") :
    getLocationFromIPFallback env ip = unknownLocation := by
  rcases getLocationFromIPFallback_classify env ip with h1 | ⟨b, hb, hs, _⟩
  · exact h1
  · exact absurd hs (h b hb)

/-- A list is a Boolean prefix of itself. -/
theorem isPrefixOf_self (l : List Char) : l.isPrefixOf l = true := by
  induction l with
  | nil => rfl
  | cons c cs ih => simp [List.isPrefixOf, ih]

/-- A pattern occurs in any list that ends with it. -/
theorem charsContain_append (pre pat : List Char) :
    charsContain pat (pre ++ pat) = true := by
  induction pre with
  | nil =>
    cases pat with
    | nil => rfl
    | cons c cs => simp [charsContain, isPrefixOf_self]
  | cons c pre ih => simp [charsContain, ih]

/-- Every canonical self-referential tracking URL contains the
`/scan/<slug>` segment, whatever protocol and host the caller used. -/
theorem scanUrl_contains_segment (protocol host slug : String) :
    charsContain ("/scan/" ++ slug).data (scanUrl protocol host slug).data = true := by
  have h : (scanUrl protocol host slug).data
      = (protocol.data ++ "://".data ++ host.data) ++ ("/scan/" ++ slug).data := by
    simp [scanUrl]
  rw [h]
  exact charsContain_append _ _

/-- When neither provider has a usable answer, the primary phase ends
in the sentinel, whatever the resolved target IP was. -/
theorem primaryPhase_noAnswer (env : GeoEnv) (ip tIp : String)
    (hp : primaryNoAnswer env) (hf : fallbackNoAnswer env) :
    primaryPhase env ip tIp = unknownLocation := by
  unfold primaryPhase primaryAttempt
  rcases h : env.primary with _ | _ | s | b
  · rfl
  · simp [getLocationFromIPFallback_noAnswer env _ hf]
  · by_cases h4 : s = 429 <;>
      simp [h4, getLocationFromIPFallback_noAnswer env _ hf]
  · have hb := hp b h
    simp [hb, getLocationFromIPFallback_noAnswer env _ hf]

/-- The primary phase always ends in the sentinel or in a normalized
provider payload. -/
theorem primaryPhase_classify (env : GeoEnv) (ip tIp : String) :
    primaryPhase env ip tIp = unknownLocation
    ∨ (∃ b, env.primary = .ok b ∧ primaryPhase env ip tIp = normalizePrimary b)
    ∨ (∃ b, env.fallback = .ok b ∧ primaryPhase env ip tIp = normalizeFallback b) := by
  have hfb : ∀ ip2 : String,
      getLocationFromIPFallback env ip2 = unknownLocation
      ∨ ∃ b, env.fallback = .ok b
          ∧ getLocationFromIPFallback env ip2 = normalizeFallback b := by
    intro ip2
    rcases getLocationFromIPFallback_classify env ip2 with h | ⟨b, hb, _, he⟩
    · exact Or.inl h
    · exact Or.inr ⟨b, hb, he⟩
  unfold primaryPhase primaryAttempt
  rcases h : env.primary with _ | _ | s | b
  · exact Or.inl rfl
  · rcases hfb (jsOrStr (some tIp) ip) with h2 | ⟨b, hb, he⟩
    · exact Or.inl (by simp [h2])
    · exact Or.inr (Or.inr ⟨b, hb, by simp [he]⟩)
  · by_cases h4 : s = 429
    · rcases hfb ip with h2 | ⟨b, hb, he⟩
      · exact Or.inl (by simp [h4, h2])
      · exact Or.inr (Or.inr ⟨b, hb, by simp [h4, he]⟩)
    · rcases hfb (jsOrStr (some tIp) ip) with h2 | ⟨b, hb, he⟩
      · exact Or.inl (by simp [h4, h2])
      · exact Or.inr (Or.inr ⟨b, hb, by simp [h4, he]⟩)
  · by_cases hberr : b.error
    · rcases hfb ip with h2 | ⟨b2, hb2, he⟩
      · exact Or.inl (by simp [hberr, h2])
      · exact Or.inr (Or.inr ⟨b2, hb2, by simp [hberr, he]⟩)
    · exact Or.inr (Or.inl ⟨b, rfl, by simp [hberr]⟩)

/-- The upward walk performs at most `fuel` iterations. -/
theorem walkToRoot_steps_le (db : List User) (u : User) (fuel : Nat) :
    (walkToRoot db u fuel).2 ≤ fuel := by
  induction fuel generalizing u with
  | zero => simp [walkToRoot]
  | succ n ih =>
    unfold walkToRoot
    by_cases h1 : (!(jsStrTruthy u.invitedBy)) = true
    · simp [h1]
    · by_cases h2 : (!(validUserId (u.invitedBy.getD ""))) = true
      · simp [h1, h2]
      · rcases h3 : findUser db (u.invitedBy.getD "") with _ | inviter
        · simp [h1, h2, h3]
        · by_cases h4 :
            (inviter.role == "admin" && !(jsStrTruthy inviter.invitedBy)) = true
          · simp [h1, h2, h3, h4]
          · have := ih inviter
            simp [h1, h2, h3, h4]
            omega

/-- One iteration of the walk that immediately finds the root admin. -/
theorem walkToRoot_found (db : List User) (cur inviter : User) (fuel : Nat)
    (h1 : jsStrTruthy cur.invitedBy = true)
    (h2 : validUserId (cur.invitedBy.getD "") = true)
    (h3 : findUser db (cur.invitedBy.getD "") = some inviter)
    (h4 : (inviter.role == "admin" && !(jsStrTruthy inviter.invitedBy)) = true) :
    (walkToRoot db cur (fuel + 1)).1 = .ok (some inviter.id) := by
  unfold walkToRoot
  simp [h1, h2, h3, h4]

/-! ## Claim theorems -/

/-- Claim C5 (confirmed): for every ShortLink whose expiry timestamp is
set and strictly in the past, the gate returns `Gone` for every
supplied password and every behaviour of the password comparator — the
expiry check precedes the password gate. -/
theorem C5_expired_always_gone (db : List QrCode) (slug : String)
    (password : Option String) (now : Int) (cmp : String → String → Bool)
    (qr : QrCode) (t : Int) (hfind : findBySlug db slug = some qr)
    (hexp : qr.expiresAt = some t) (hpast : t < now) :
    resolveGate db slug password now cmp = .gone := by
  unfold resolveGate
  rw [hfind]
  have he : expiredNow qr now = true := by
    simp [expiredNow, hexp]
    omega
  simp [he]

/-- Witness for C5: a password-protected link expired at time 5,
queried with a correct password at time 10, is still `Gone`. -/
theorem C5_expired_always_gone_w :
    resolveGate dbExpired "expired99" (some "right") 10 (fun _ _ => true) = .gone :=
  C5_expired_always_gone dbExpired "expired99" (some "right") 10 (fun _ _ => true)
    { id := "q2", slug := "expired99", originalUrl := "https://a.example",
      dynamic := false, passwordHash := some "h", expiresAt := some 5 } 5
    rfl rfl (by norm_num)

/-- Claim C1 is false on the code: for this dynamic link that passes
the gate, the redirect target is the stored URL itself, which does not
contain the `/scan/<slug>` segment that every canonical
self-referential tracking URL pointed at the slug carries (see
`scanUrl_contains_segment`). -/
theorem C1_dynamic_redirect_counterexample :
    resolveGate dbDyn "abc12345" none 0 (fun _ _ => true)
        = .redirect "https://example.com"
    ∧ (findBySlug dbDyn "abc12345").map QrCode.dynamic = some true
    ∧ charsContain ("/scan/" ++ "abc12345").data "https://example.com".data
        = false :=
  ⟨rfl, rfl, by decide⟩

/-- Claim C1 amended: whenever the gate passes, the redirect target is
exactly the originally stored URL, for dynamic and non-dynamic links
alike (the canonical self-referential tracking URL appears only in QR
image generation, not in the redirect decision). -/
theorem C1_redirect_is_stored_url (db : List QrCode) (slug : String)
    (password : Option String) (now : Int) (cmp : String → String → Bool)
    (qr : QrCode) (hfind : findBySlug db slug = some qr)
    (hexp : expiredNow qr now = false)
    (hpw : jsStrTruthy qr.passwordHash = false
      ∨ (jsStrTruthy password = true
          ∧ cmp (password.getD "") (qr.passwordHash.getD "") = true)) :
    resolveGate db slug password now cmp = .redirect qr.originalUrl := by
  unfold resolveGate resolvePassword
  rw [hfind]
  rcases hpw with h | ⟨h1, h2⟩
  · simp [hexp, h]
  · by_cases hph : jsStrTruthy qr.passwordHash <;> simp [hexp, hph, h1, h2]

/-- Witness for the amended C1: a dynamic and a static link, both with
stored target `https://example.com`, both redirect to exactly that
URL. -/
theorem C1_redirect_is_stored_url_w :
    resolveGate dbDyn "abc12345" none 0 (fun _ _ => true)
        = .redirect "https://example.com"
    ∧ resolveGate dbStatic "stat5678" none 0 (fun _ _ => true)
        = .redirect "https://example.com" :=
  ⟨C1_redirect_is_stored_url dbDyn "abc12345" none 0 (fun _ _ => true)
      { id := "q1", slug := "abc12345", originalUrl := "https://example.com",
        dynamic := true, passwordHash := none, expiresAt := none }
      rfl rfl (Or.inl rfl),
   C1_redirect_is_stored_url dbStatic "stat5678" none 0 (fun _ _ => true)
      { id := "q3", slug := "stat5678", originalUrl := "https://example.com",
        dynamic := false, passwordHash := none, expiresAt := none }
      rfl rfl (Or.inl rfl)⟩

/-- Claim C10 (confirmed): when the enriched insert fails, `logScan`
makes exactly one retry, whose record carries only the ShortLink id,
the IP and the user-agent with every location field absent; if that
retry also fails nothing is persisted and nothing is thrown, and the
client-visible redirect outcome never depends on the recorder
environment. -/
theorem C10_retry_once_minimal (env : RecorderEnv) (qrId : String)
    (clientIP : Option String) (ua : String) (loc : LocationData)
    (hgeo : env.geo = .ok loc) (hfail : env.enrichedInsertOk = false) :
    (logScan env qrId clientIP ua).2
        = [enrichedRow qrId clientIP ua loc, minimalRow qrId clientIP ua]
    ∧ (minimalRow qrId clientIP ua).country = none
    ∧ (minimalRow qrId clientIP ua).city = none
    ∧ (minimalRow qrId clientIP ua).region = none
    ∧ (minimalRow qrId clientIP ua).latitude = none
    ∧ (minimalRow qrId clientIP ua).longitude = none
    ∧ (env.minimalInsertOk = false → (logScan env qrId clientIP ua).1 = none)
    ∧ (∀ db slug password now cmp env2,
        (resolveAndLog db slug password now cmp env clientIP ua).1
          = (resolveAndLog db slug password now cmp env2 clientIP ua).1) := by
  refine ⟨?_, rfl, rfl, rfl, rfl, rfl, ?_, ?_⟩
  · unfold logScan
    rw [hgeo, hfail]
    by_cases hm : env.minimalInsertOk <;> simp [hm]
  · intro hm
    unfold logScan
    rw [hgeo, hfail, hm]
    simp
  · intro db slug password now cmp env2
    rw [resolveAndLog_fst, resolveAndLog_fst]

/-- Witness for C10: with geolocation resolved and both inserts
failing, the attempt list is enriched-then-minimal and nothing is
persisted. -/
theorem C10_retry_once_minimal_w :
    (logScan envBothInsertsFail "q1" (some "1.2.3.4") "agent").1 = none
    ∧ (logScan envBothInsertsFail "q1" (some "1.2.3.4") "agent").2
        = [enrichedRow "q1" (some "1.2.3.4") "agent" unknownLocation,
           minimalRow "q1" (some "1.2.3.4") "agent"] := by
  have h := C10_retry_once_minimal envBothInsertsFail "q1" (some "1.2.3.4")
    "agent" unknownLocation rfl rfl
  exact ⟨h.2.2.2.2.2.2.1 rfl, h.1⟩

/-- Claim C6 (confirmed): whatever the providers do, the resolver ends
in the sentinel or in a normalized provider payload — never in a thrown
error — and when no provider produced any answer the result is exactly
the sentinel record. -/
theorem C6_all_failures_absorbed (env : GeoEnv) (ip : String) :
    (primaryNoAnswer env → fallbackNoAnswer env →
        getLocationFromIP env ip = unknownLocation)
    ∧ (getLocationFromIP env ip = unknownLocation
       ∨ (∃ b, env.primary = .ok b
           ∧ getLocationFromIP env ip = normalizePrimary b)
       ∨ (∃ b, env.fallback = .ok b
           ∧ getLocationFromIP env ip = normalizeFallback b)) := by
  unfold getLocationFromIP
  by_cases hpriv : isPrivateIP ip = true
  · rw [if_pos hpriv]
    rcases hpub : getPublicIP env with _ | pub
    · exact ⟨fun _ _ => rfl, Or.inl rfl⟩
    · exact ⟨primaryPhase_noAnswer env ip pub, primaryPhase_classify env ip pub⟩
  · rw [if_neg hpriv]
    exact ⟨primaryPhase_noAnswer env ip ip, primaryPhase_classify env ip ip⟩

/-- Witness for C6: every discovery service down, the primary provider
throwing and the secondary returning HTTP 500 still produce exactly the
sentinel record. -/
theorem C6_all_failures_absorbed_w :
    getLocationFromIP envAllFail "1.2.3.4" = unknownLocation :=
  (C6_all_failures_absorbed envAllFail "1.2.3.4").1
    (fun b h => by simp [envAllFail] at h)
    (fun b h => by simp [envAllFail] at h)

/-- Claim C3 is false on the code: when the primary provider times out
the resolver returns the sentinel directly, even though the secondary
provider would have answered with a full record. -/
theorem C3_timeout_counterexample :
    getLocationFromIP envPrimaryTimeout "1.2.3.4" = unknownLocation
    ∧ getLocationFromIPFallback envPrimaryTimeout "1.2.3.4"
        = { country := some "France", city := some "Paris",
            region := some "IDF", latitude := some 48, longitude := some 2 }
    ∧ ({ country := some "France", city := some "Paris", region := some "IDF",
         latitude := some 48, longitude := some 2 } : LocationData)
        ≠ unknownLocation :=
  ⟨rfl, rfl, by decide⟩

/-- Claim C3 amended: a rate-limited, error-payload, transport-error or
other non-2xx primary outcome falls through to the secondary provider,
but a primary timeout returns the sentinel without attempting the
secondary at all. -/
theorem C3_fallthrough_except_timeout (env : GeoEnv) (ip : String)
    (hpriv : isPrivateIP ip = false) :
    (∀ s, env.primary = .httpError s →
        getLocationFromIP env ip = getLocationFromIPFallback env ip)
    ∧ (∀ b, env.primary = .ok b → b.error = true →
        getLocationFromIP env ip = getLocationFromIPFallback env ip)
    ∧ (env.primary = .transportError →
        getLocationFromIP env ip = getLocationFromIPFallback env ip)
    ∧ (env.primary = .timeout → getLocationFromIP env ip = unknownLocation) := by
  have hgl : getLocationFromIP env ip = primaryPhase env ip ip := by
    unfold getLocationFromIP
    rw [if_neg (by simp [hpriv])]
  refine ⟨?_, ?_, ?_, ?_⟩
  · intro s h
    rw [hgl]
    unfold primaryPhase primaryAttempt
    rw [h]
    by_cases h4 : s = 429
    · simp [h4]
    · simp [h4, jsOrStr_self]
  · intro b h hberr
    rw [hgl]
    unfold primaryPhase primaryAttempt
    rw [h]
    simp [hberr]
  · intro h
    rw [hgl]
    unfold primaryPhase primaryAttempt
    rw [h]
    simp [jsOrStr_self]
  · intro h
    rw [hgl]
    unfold primaryPhase primaryAttempt
    rw [h]

/-- Witness for the amended C3: a rate-limited primary falls through to
the secondary provider's record. -/
theorem C3_fallthrough_except_timeout_w :
    getLocationFromIP envRateLimited "9.9.9.9"
      = getLocationFromIPFallback envRateLimited "9.9.9.9" :=
  (C3_fallthrough_except_timeout envRateLimited "9.9.9.9" rfl).1 429 rfl

/-- Claim C4 is false on the code: the primary provider answered (it
produced a country) while omitting the city, yet the returned record
carries the fabricated string `Unknown` in the city field instead of an
absent value. -/
theorem C4_omitted_city_counterexample :
    envPartialAnswer.primary
      = .ok { error := false, country_name := some "France", city := none,
              region := some "IDF", latitude := some 48, longitude := some 2 }
    ∧ (getLocationFromIP envPartialAnswer "1.2.3.4").country = some "France"
    ∧ (getLocationFromIP envPartialAnswer "1.2.3.4").city = some "Unknown" :=
  ⟨rfl, rfl, rfl⟩

/-- Claim C4 amended: only the numeric fields (latitude/longitude) are
surfaced as absent when the provider omits them; an omitted or empty
country/city/region string is defaulted to the `Unknown` string
per-field, even when the provider produced an answer, while a nonempty
provided string is passed through. -/
theorem C4_field_defaulting (env : GeoEnv) (ip : String) (b : PrimaryBody)
    (hpriv : isPrivateIP ip = false) (hb : env.primary = .ok b)
    (herr : b.error = false) :
    getLocationFromIP env ip = normalizePrimary b
    ∧ (b.latitude = none → (getLocationFromIP env ip).latitude = none)
    ∧ (b.longitude = none → (getLocationFromIP env ip).longitude = none)
    ∧ (b.city = none → (getLocationFromIP env ip).city = some "Unknown")
    ∧ (∀ c, b.city = some c → c ≠ "" →
        (getLocationFromIP env ip).city = some c) := by
  have hgl : getLocationFromIP env ip = normalizePrimary b := by
    unfold getLocationFromIP
    rw [if_neg (by simp [hpriv])]
    unfold primaryPhase primaryAttempt
    rw [hb]
    simp [herr]
  refine ⟨hgl, ?_, ?_, ?_, ?_⟩
  · intro h
    rw [hgl]
    simp [normalizePrimary, jsNumTruthy, h]
  · intro h
    rw [hgl]
    simp [normalizePrimary, jsNumTruthy, h]
  · intro h
    rw [hgl]
    simp [normalizePrimary, jsOrStr, h]
  · intro c hc hne
    rw [hgl]
    simp [normalizePrimary, jsOrStr, hc, hne]

/-- Witness for the amended C4: the partial primary answer yields a
passed-through country, a defaulted city and an absent longitude once
the provider omits it. -/
theorem C4_field_defaulting_w :
    (getLocationFromIP envPartialAnswer "1.2.3.4").country = some "France"
    ∧ (getLocationFromIP envPartialAnswer "1.2.3.4").city = some "Unknown" := by
  have h := C4_field_defaulting envPartialAnswer "1.2.3.4"
    { error := false, country_name := some "France", city := none,
      region := some "IDF", latitude := some 48, longitude := some 2 }
    rfl rfl rfl
  exact ⟨by rw [h.1]; rfl, h.2.2.2.1 rfl⟩

/-- Claim C7 (confirmed): for every stored identity graph the upward
walk runs at most 10 iterations, and whenever it found no root (broken
chain, non-root end, or ceiling hit) the resolver degrades to exactly
the querying identity alone instead of failing. -/
theorem C7_bounded_walk_degrades (db : List User) (userId : String)
    (user : User) (hv : validUserId userId = true)
    (hfind : findUser db userId = some user) :
    (walkToRoot db user 10).2 ≤ 10
    ∧ ((user.role == "admin" && !(jsStrTruthy user.invitedBy)) = false →
        (walkToRoot db user 10).1 = .ok none →
        getTeamMembers db userId = .ok [user]) := by
  refine ⟨walkToRoot_steps_le db user 10, ?_⟩
  intro hroot hwalk
  unfold getTeamMembers
  simp [hv, hfind, hroot, hwalk]

/-- Witness for C7: a two-node `invitedBy` cycle stays within the
ceiling and degrades to self, as does a chain whose inviter id is
absent from the store. -/
theorem C7_bounded_walk_degrades_w :
    (walkToRoot teamDbCycle
        { id := "cycuserAAA", email := "a@example.com", role := "editor",
          invitedBy := some "cycuserBBB" } 10).2 ≤ 10
    ∧ getTeamMembers teamDbCycle "cycuserAAA"
        = .ok [{ id := "cycuserAAA", email := "a@example.com", role := "editor",
                 invitedBy := some "cycuserBBB" }]
    ∧ getTeamMembers teamDbBroken "orphanuser"
        = .ok [{ id := "orphanuser", email := "o@example.com", role := "viewer",
                 invitedBy := some "missinguser" }] := by
  have hc := C7_bounded_walk_degrades teamDbCycle "cycuserAAA"
    { id := "cycuserAAA", email := "a@example.com", role := "editor",
      invitedBy := some "cycuserBBB" } (by decide) rfl
  have hb := C7_bounded_walk_degrades teamDbBroken "orphanuser"
    { id := "orphanuser", email := "o@example.com", role := "viewer",
      invitedBy := some "missinguser" } (by decide) rfl
  exact ⟨hc.1, hc.2 rfl rfl, hb.2 rfl rfl⟩

/-- Claim C2 is contradicted by the code (and by `getTeamMembers`' own
documentation): for the two-step chain root ← middle ← leaf, the leaf's
own team query returns only the root and the root's direct invitee —
the querying identity itself is missing from the list. -/
theorem C2_two_step_chain_excludes_querier :
    getTeamMemberIds teamDbChain "leafuser99"
        = .ok ["adminroot1", "middleuser"]
    ∧ ¬ ("leafuser99" ∈ ["adminroot1", "middleuser"]) :=
  ⟨rfl, by decide⟩

/-- Claim C8 (confirmed): in a store holding exactly a root admin `x`
and two identities invited by `x`, the team query of the root and of
each invitee returns the same id list `[x, a, b]`. -/
theorem C8_root_and_invitees_same_team (x a b : User)
    (hvx : validUserId x.id = true) (hva : validUserId a.id = true)
    (hvb : validUserId b.id = true)
    (hxr : x.role = "admin") (hxi : x.invitedBy = none)
    (hai : a.invitedBy = some x.id) (hbi : b.invitedBy = some x.id)
    (hax : a.id ≠ x.id) (hbx : b.id ≠ x.id) (hab : a.id ≠ b.id) :
    getTeamMemberIds [x, a, b] x.id = .ok [x.id, a.id, b.id]
    ∧ getTeamMemberIds [x, a, b] a.id = .ok [x.id, a.id, b.id]
    ∧ getTeamMemberIds [x, a, b] b.id = .ok [x.id, a.id, b.id] := by
  have hxe : x.id ≠ "" := validUserId_ne_empty hvx
  have hteam : teamUnder [x, a, b] x.id = [x, a, b] := by
    simp [teamUnder, List.filter, hxi, hai, hbi]
  have hroot : (x.role == "admin" && !(jsStrTruthy x.invitedBy)) = true := by
    simp [hxr, hxi, jsStrTruthy]
  have hrootA : (a.role == "admin" && !(jsStrTruthy a.invitedBy)) = false := by
    simp [hai, jsStrTruthy, hxe]
  have hrootB : (b.role == "admin" && !(jsStrTruthy b.invitedBy)) = false := by
    simp [hbi, jsStrTruthy, hxe]
  have hfx : findUser [x, a, b] x.id = some x := by
    simp [findUser, List.find?]
  have hfa : findUser [x, a, b] a.id = some a := by
    have h1 : (x.id == a.id) = false := by
      simp [Ne.symm hax]
    simp [findUser, List.find?, h1]
  have hfb : findUser [x, a, b] b.id = some b := by
    have h1 : (x.id == b.id) = false := by
      simp [Ne.symm hbx]
    have h2 : (a.id == b.id) = false := by
      simp [hab]
    simp [findUser, List.find?, h1, h2]
  have hwa : (walkToRoot [x, a, b] a 10).1 = .ok (some x.id) :=
    walkToRoot_found [x, a, b] a x 9
      (by rw [hai]; exact jsStrTruthy_of_valid hvx)
      (by rw [hai]; exact hvx)
      (by rw [hai]; exact hfx) hroot
  have hwb : (walkToRoot [x, a, b] b 10).1 = .ok (some x.id) :=
    walkToRoot_found [x, a, b] b x 9
      (by rw [hbi]; exact jsStrTruthy_of_valid hvx)
      (by rw [hbi]; exact hvx)
      (by rw [hbi]; exact hfx) hroot
  refine ⟨?_, ?_, ?_⟩
  · unfold getTeamMemberIds getTeamMembers
    simp [hvx, hfx, hroot, hteam, Except.map]
  · unfold getTeamMemberIds getTeamMembers
    simp [hva, hfa, hrootA, hwa, hvx, hteam, Except.map]
  · unfold getTeamMemberIds getTeamMembers
    simp [hvb, hfb, hrootB, hwb, hvx, hteam, Except.map]

/-- Witness for C8 on a concrete three-identity store. -/
theorem C8_root_and_invitees_same_team_w :
    getTeamMemberIds
        [{ id := "rootadmin1", email := "r@example.com", role := "admin",
           invitedBy := none },
         { id := "inviteeAAA", email := "a@example.com", role := "editor",
           invitedBy := some "rootadmin1" },
         { id := "inviteeBBB", email := "b@example.com", role := "viewer",
           invitedBy := some "rootadmin1" }] "inviteeAAA"
      = .ok ["rootadmin1", "inviteeAAA", "inviteeBBB"] :=
  (C8_root_and_invitees_same_team
    { id := "rootadmin1", email := "r@example.com", role := "admin",
      invitedBy := none }
    { id := "inviteeAAA", email := "a@example.com", role := "editor",
      invitedBy := some "rootadmin1" }
    { id := "inviteeBBB", email := "b@example.com", role := "viewer",
      invitedBy := some "rootadmin1" }
    (by decide) (by decide) (by decide) rfl rfl rfl rfl
    (by decide) (by decide) (by decide)).2.1

/-- Claim C9 is false on the code as universally stated for iPad: a
user-agent containing both `iPad` and `Mobile` (as real iPad browser
user-agents do) is counted in the mobile bucket, because the mobile
token test runs before the tablet token test. -/
theorem C9_ipad_mobile_counterexample :
    containsToken (jsToLower "iPad Mobile") "ipad" = true
    ∧ classifyUA (some "iPad Mobile") = .mobile
    ∧ deviceStats [some "iPad Mobile"]
        = { mobile := 1, desktop := 0, tablet := 0 } :=
  ⟨by decide, by decide, by decide⟩

/-- Claim C9 amended: a user-agent containing `iPhone`
(case-insensitively) always lands in the mobile bucket; one containing
`iPad` lands in the tablet bucket only when it contains none of the
mobile tokens (`mobile`, `android`, `iphone`); an empty or absent
user-agent lands in the desktop bucket. -/
theorem C9_device_classification (s : String) :
    (containsToken (jsToLower s) "iphone" = true → classifyUA (some s) = .mobile)
    ∧ (containsToken (jsToLower s) "ipad" = true →
        containsToken (jsToLower s) "mobile" = false →
        containsToken (jsToLower s) "android" = false →
        containsToken (jsToLower s) "iphone" = false →
        classifyUA (some s) = .tablet)
    ∧ classifyUA none = .desktop
    ∧ classifyUA (some "") = .desktop := by
  have hlow : jsOrStr ((some s).map jsToLower) "" = jsToLower s := by
    simp [jsOrStr_empty_default]
  refine ⟨?_, ?_, rfl, rfl⟩
  · intro h
    unfold classifyUA
    rw [hlow]
    simp [h]
  · intro h hm ha hi
    unfold classifyUA
    rw [hlow]
    simp [h, hm, ha, hi]

/-- Witness for the amended C9 on concrete user-agents. -/
theorem C9_device_classification_w :
    classifyUA (some "my iPhone 15") = .mobile
    ∧ classifyUA (some "weird iPad thing") = .tablet
    ∧ classifyUA none = .desktop :=
  ⟨(C9_device_classification "my iPhone 15").1 (by decide),
   (C9_device_classification "weird iPad thing").2.1
     (by decide) (by decide) (by decide) (by decide),
   (C9_device_classification "x").2.2.1⟩

end Qrify
